import Mathlib

/-!
# Shallow embedding of the discord objective bot (src/app.js)

The core of the program is the cooldown-and-streak state machine in the
`submit` command handler, plus the hourly reminder sweep.  We embed the
relevant fragments of `src/app.js` as pure Lean functions:

* times are epoch milliseconds, modelled as `Int` (JavaScript `Date.now()`);
* a JavaScript `Date` object is modelled by `JsDate`: its epoch-millis value
  (`ms`, the result of coercing the date to a number), its `getMonth()`
  result (`month`, 0-based as in JavaScript: January = 0, December = 11) and
  its `getFullYear()` result (`year`).  The process is assumed to run in
  UTC, so the calendar fields agree with the UTC date written by
  `toISOString()`;
* the stored `lastStreakDay` column holds a `YYYY-MM-DD` string; parsing it
  with `new Date(...)` yields midnight UTC of that day, i.e. a `JsDate`
  whose `ms` is a multiple of `msPerDay`;
* SQL `NULL`able columns are modelled with `Option`;
* `Math.floor` of a division of integers is `Int.fdiv` (floor division).
-/

namespace DiscordBot

/-- `60 * 60 * 1000`: one hour in milliseconds, as written in app.js. -/
def msPerHour : Int := 60 * 60 * 1000

/-- `24 * 60 * 60 * 1000`: one day in milliseconds, as written in app.js. -/
def msPerDay : Int := 24 * 60 * 60 * 1000

/-- A JavaScript `Date` value: its numeric (epoch-millis) value together with
the calendar month (`getMonth()`, 0-based) and year (`getFullYear()`). -/
structure JsDate where
  ms : Int
  month : Nat
  year : Int
deriving Repr, DecidableEq

/-- The epoch day number of a date (which UTC calendar day `ms` falls on). -/
def JsDate.dayNumber (d : JsDate) : Int := d.ms.fdiv msPerDay

/-- `d.toISOString().split('T')[0]` re-parsed as a date: midnight UTC of the
same calendar day (app.js line 222 stores this string in `lastStreakDay`). -/
def JsDate.dateOnly (d : JsDate) : JsDate :=
  { d with ms := d.dayNumber * msPerDay }

/-- One row of the `objectives` table (app.js lines 26-37). -/
structure Objective where
  userId : String
  name : String
  frequency : String
  lastSubmitted : Option Int
  streak : Int
  lastStreakDay : Option JsDate
  lastReminded : Option Int
deriving Repr, DecidableEq

/-- JavaScript truthiness of a nullable integer: `null` and `0` are falsy
(`if (obj.lastSubmitted)`, app.js line 171). -/
def jsTruthyInt : Option Int → Bool
  | none => false
  | some n => n != 0

/-- The numeric value of a nullable integer column (used only under a
truthiness guard, where it is `some n` with `n ≠ 0`). -/
def optIntVal : Option Int → Int
  | none => 0
  | some n => n

/-- The cooldown offsets of app.js lines 170-183 (and, identically, lines
227-229 and 322-327): starting from `nextAllowed = 0`, each recognized
frequency assigns `lastSubmitted` plus its fixed offset; an unrecognized
frequency leaves `nextAllowed` at 0. -/
def nextAllowedFor (frequency : String) (lastSubmitted : Int) : Int :=
  if frequency == "daily" then lastSubmitted + 22 * msPerHour
  else if frequency == "weekly" then lastSubmitted + (7 * 24 - 6) * msPerHour
  else if frequency == "monthly" then lastSubmitted + (30 * 24 - 6) * msPerHour
  else 0

/-- The `nextAllowed` value the submit handler computes for a stored record
(app.js lines 170-183): 0 unless `obj.lastSubmitted` is truthy. -/
def cooldownNextAllowed (obj : Objective) : Int :=
  if jsTruthyInt obj.lastSubmitted then
    nextAllowedFor obj.frequency (optIntVal obj.lastSubmitted)
  else 0

/-- The streak-consecutiveness check of app.js lines 201-216.  `today` is
`new Date()` at submission time; `lastStreakDay` is the parsed stored
`YYYY-MM-DD` string, or `none` when the column is `NULL`. -/
def isConsecutive (frequency : String) (today : JsDate)
    (lastStreakDay : Option JsDate) : Bool :=
  match lastStreakDay with
  | none => false
  | some lsd =>
    if frequency == "daily" then
      (today.ms - lsd.ms).fdiv msPerDay == 1
    else if frequency == "weekly" then
      (today.ms - lsd.ms).fdiv (7 * msPerDay) == 1
    else if frequency == "monthly" then
      today.month == lsd.month + 1 && today.year == lsd.year
    else false

/-- Outcome of the submit handler once the objective record was found:
either the cooldown rejection of app.js lines 184-194 (carrying the
`nextAllowed` it reports) or the acceptance of lines 197-247 (carrying the
new streak and the recomputed `nextAllowed` of lines 227-229). -/
inductive SubmitOutcome where
  | cooldownActive (nextAllowed : Int)
  | accepted (streak : Int) (nextAllowed : Int)
deriving Repr, DecidableEq

/-- Whether an outcome is the cooldown rejection. -/
def SubmitOutcome.isCooldown : SubmitOutcome → Bool
  | .cooldownActive _ => true
  | .accepted _ _ => false

/-- The core of the submit handler (app.js lines 169-247), from the point
where the record `obj` was found.  `now` is `Date.now()` (line 169), `today`
is `new Date()` (line 201).  Returns the outcome together with the state of
the database row after the handler ran: on cooldown rejection the handler
returns before any assignment or `upsertObjective`, so the row is `obj`
unchanged; on acceptance it is the mutated record persisted on line 224. -/
def submit (obj : Objective) (now : Int) (today : JsDate) :
    SubmitOutcome × Objective :=
  let nextAllowed := cooldownNextAllowed obj
  if jsTruthyInt obj.lastSubmitted && decide (now < nextAllowed) then
    (.cooldownActive nextAllowed, obj)
  else
    let consec := isConsecutive obj.frequency today obj.lastStreakDay
    let newStreak : Int :=
      if consec then (if obj.streak == 0 then 0 else obj.streak) + 1 else 1
    let newObj : Objective :=
      { obj with
        lastSubmitted := some now
        streak := newStreak
        lastStreakDay := some today.dateOnly }
    (.accepted newStreak (nextAllowedFor obj.frequency now), newObj)

/-- Iterated submissions: fold `submit` over a list of `(now, today)`
instants, threading the stored record. -/
def submitMany (obj : Objective) : List (Int × JsDate) → Objective
  | [] => obj
  | (now, today) :: rest => submitMany (submit obj now today).2 rest

/-- The staleness selection of the reminder sweep (app.js lines 76-80):
`(lastSubmitted IS NULL OR lastSubmitted < now - 24h) AND (lastReminded IS
NULL OR lastReminded < now - 24h)`. -/
def isStale (now : Int) (o : Objective) : Bool :=
  (match o.lastSubmitted with
   | none => true
   | some t => decide (t < now - 24 * msPerHour)) &&
  (match o.lastReminded with
   | none => true
   | some t => decide (t < now - 24 * msPerHour))

/-- The effect of one sweep iteration on one row (app.js lines 82-96).
`dispatchOk u` abstracts whether fetching user `u` and sending the DM
succeeds; on success `lastReminded` is set to the sweep's `now` (lines
89-91), on failure (exception caught, or falsy user) the row is untouched. -/
def sweepRecord (dispatchOk : String → Bool) (now : Int) (o : Objective) :
    Objective :=
  if isStale now o then
    if dispatchOk o.userId then { o with lastReminded := some now } else o
  else o

/-- One full reminder sweep at time `now` over the table (app.js lines
71-97): rows failing the staleness filter are untouched; each selected row
is processed independently inside its own try/catch. -/
def sweep (dispatchOk : String → Bool) (now : Int) (objs : List Objective) :
    List Objective :=
  objs.map (sweepRecord dispatchOk now)

/-! ## Sample values used by the witness theorems -/

/-- A concrete date: 2026-01-12 UTC (epoch day 20465), noon. -/
def sampleToday : JsDate := { ms := 20465 * msPerDay + 12 * msPerHour, month := 0, year := 2026 }

/-- A concrete daily objective with a prior submission at epoch-millis 1000000. -/
def sampleObjective : Objective :=
  { userId := "u1", name := "run", frequency := "daily",
    lastSubmitted := some 1000000, streak := 2,
    lastStreakDay := none, lastReminded := none }

/-- A stale record: last submitted 25h before the sweep at `100h`, never
reminded. -/
def sampleStale : Objective :=
  { userId := "s1", name := "stretch", frequency := "daily",
    lastSubmitted := some (75 * msPerHour), streak := 1,
    lastStreakDay := none, lastReminded := none }

/-- A second stale record, owned by user "u3" (whose DMs fail in the C9
witness). -/
def sampleStale3 : Objective :=
  { userId := "u3", name := "read", frequency := "weekly",
    lastSubmitted := none, streak := 0,
    lastStreakDay := none, lastReminded := some (60 * msPerHour) }

/-- A concrete objective with an unrecognized frequency. -/
def sampleYearly : Objective :=
  { userId := "u2", name := "taxes", frequency := "yearly",
    lastSubmitted := some 1000000, streak := 5,
    lastStreakDay := some { ms := 20000 * msPerDay, month := 9, year := 2024 },
    lastReminded := none }

/-! ## Helper lemmas -/

/-- When the cooldown guard of app.js line 184 does not fire, `submit` takes
the acceptance path and produces exactly the mutated record of lines
197-224. -/
theorem submit_not_cooldown (obj : Objective) (now : Int) (today : JsDate)
    (hg : (jsTruthyInt obj.lastSubmitted &&
      decide (now < cooldownNextAllowed obj)) = false) :
    submit obj now today =
      (SubmitOutcome.accepted
        (if isConsecutive obj.frequency today obj.lastStreakDay then
          (if obj.streak == 0 then 0 else obj.streak) + 1 else 1)
        (nextAllowedFor obj.frequency now),
       { obj with
          lastSubmitted := some now
          streak := if isConsecutive obj.frequency today obj.lastStreakDay then
            (if obj.streak == 0 then 0 else obj.streak) + 1 else 1
          lastStreakDay := some today.dateOnly }) := by
  simp [submit, hg]

/-- When the cooldown guard of app.js line 184 fires, `submit` rejects and
returns before any mutation. -/
theorem submit_cooldown (obj : Objective) (now : Int) (today : JsDate)
    (hg : (jsTruthyInt obj.lastSubmitted &&
      decide (now < cooldownNextAllowed obj)) = true) :
    submit obj now today =
      (SubmitOutcome.cooldownActive (cooldownNextAllowed obj), obj) := by
  simp [submit, hg]

/-! ## Claim theorems -/

/-- C1: for a record whose `lastSubmitted` is set (a truthy value, matching
the guard on app.js line 171), a submit at time `now` is rejected with
`CooldownActive(nextAllowed)` iff `now < nextAllowed`; on rejection the
stored row is unchanged; a submission exactly at `now = nextAllowed` is
accepted. -/
theorem C1_cooldown_rejection (obj : Objective) (now : Int) (today : JsDate)
    (ls : Int) (hls : obj.lastSubmitted = some ls) (h0 : ls ≠ 0) :
    ((submit obj now today).1 =
        SubmitOutcome.cooldownActive (nextAllowedFor obj.frequency ls) ↔
      now < nextAllowedFor obj.frequency ls) ∧
    (now < nextAllowedFor obj.frequency ls → (submit obj now today).2 = obj) ∧
    (now = nextAllowedFor obj.frequency ls →
      ∃ s na, (submit obj now today).1 = SubmitOutcome.accepted s na) := by
  have htruthy : jsTruthyInt (some ls) = true := by
    simp [jsTruthyInt, h0]
  have hna : cooldownNextAllowed obj = nextAllowedFor obj.frequency ls := by
    simp [cooldownNextAllowed, hls, htruthy, optIntVal]
  by_cases h : now < nextAllowedFor obj.frequency ls
  · have hg : (jsTruthyInt obj.lastSubmitted &&
        decide (now < cooldownNextAllowed obj)) = true := by
      simp [hls, htruthy, hna, h]
    rw [submit_cooldown obj now today hg]
    exact ⟨by simp [hna, h], fun _ => rfl, fun heq => absurd h (by omega)⟩
  · have hg : (jsTruthyInt obj.lastSubmitted &&
        decide (now < cooldownNextAllowed obj)) = false := by
      simp [hls, htruthy, hna, h]
    rw [submit_not_cooldown obj now today hg]
    exact ⟨by simp [h], fun hlt => absurd hlt h, fun _ => ⟨_, _, rfl⟩⟩

/-- C1 witness: a concrete early submission is rejected without mutating the
record, and a submission exactly at the computed boundary is accepted. -/
theorem C1_witness :
    (submit sampleObjective 0 sampleToday).2 = sampleObjective ∧
    (∃ s na, (submit sampleObjective (nextAllowedFor "daily" 1000000)
        sampleToday).1 = SubmitOutcome.accepted s na) := by
  constructor
  · exact (C1_cooldown_rejection sampleObjective 0 sampleToday 1000000 rfl
      (by decide)).2.1 (by decide)
  · exact (C1_cooldown_rejection sampleObjective (nextAllowedFor "daily" 1000000)
      sampleToday 1000000 rfl (by decide)).2.2 rfl

/-- C2: for a record with `lastSubmitted` set, the cooldown policy computes
`nextAllowed` as `lastSubmitted` plus 22h (daily), 162h (weekly) or 714h
(monthly), each strictly less than `lastSubmitted` plus the nominal period
(24h, 168h, 720h). -/
theorem C2_cooldown_offsets (obj : Objective) (ls : Int)
    (hls : obj.lastSubmitted = some ls) (h0 : ls ≠ 0) :
    (obj.frequency = "daily" →
      cooldownNextAllowed obj = ls + 22 * msPerHour ∧
      cooldownNextAllowed obj < ls + 24 * msPerHour) ∧
    (obj.frequency = "weekly" →
      cooldownNextAllowed obj = ls + 162 * msPerHour ∧
      cooldownNextAllowed obj < ls + 168 * msPerHour) ∧
    (obj.frequency = "monthly" →
      cooldownNextAllowed obj = ls + 714 * msPerHour ∧
      cooldownNextAllowed obj < ls + 720 * msPerHour) := by
  have htruthy : jsTruthyInt (some ls) = true := by
    simp [jsTruthyInt, h0]
  have hna : cooldownNextAllowed obj = nextAllowedFor obj.frequency ls := by
    simp [cooldownNextAllowed, hls, htruthy, optIntVal]
  refine ⟨fun hf => ?_, fun hf => ?_, fun hf => ?_⟩ <;>
    rw [hna, hf] <;> constructor <;> simp [nextAllowedFor, msPerHour]

/-- C2 witness: the three offsets at a concrete `lastSubmitted`. -/
theorem C2_witness :
    cooldownNextAllowed sampleObjective = 1000000 + 22 * msPerHour ∧
    cooldownNextAllowed sampleObjective < 1000000 + 24 * msPerHour := by
  exact (C2_cooldown_offsets sampleObjective 1000000 rfl (by decide)).1 rfl

/-- C6: on every accepted submission the new streak is `streak + 1` when the
submission is consecutive and `1` otherwise (in particular on the first-ever
submission, where `lastStreakDay` is `NULL`), and `lastStreakDay` is set to
the submission day's calendar date unconditionally. -/
theorem C6_streak_update (obj : Objective) (now : Int) (today : JsDate)
    (hacc : ((submit obj now today).1).isCooldown = false) :
    ((submit obj now today).2).streak =
      (if isConsecutive obj.frequency today obj.lastStreakDay then
        obj.streak + 1 else 1) ∧
    ((submit obj now today).2).lastStreakDay = some today.dateOnly ∧
    (obj.lastStreakDay = none → ((submit obj now today).2).streak = 1) := by
  by_cases hg : (jsTruthyInt obj.lastSubmitted &&
      decide (now < cooldownNextAllowed obj)) = true
  · rw [submit_cooldown obj now today hg] at hacc
    exact absurd hacc (by simp [SubmitOutcome.isCooldown])
  · rw [Bool.not_eq_true] at hg
    rw [submit_not_cooldown obj now today hg]
    have hstreak : (if isConsecutive obj.frequency today obj.lastStreakDay then
        (if obj.streak == 0 then 0 else obj.streak) + 1 else 1) =
        (if isConsecutive obj.frequency today obj.lastStreakDay then
          obj.streak + 1 else 1) := by
      by_cases hc : isConsecutive obj.frequency today obj.lastStreakDay = true
      · simp only [hc, if_true]
        by_cases hz : obj.streak = 0 <;> simp [hz]
      · rw [Bool.not_eq_true] at hc
        simp [hc]
    refine ⟨hstreak, rfl, fun hn => ?_⟩
    simp [isConsecutive, hn]

/-- C6 witness: a concrete accepted submission (no prior streak day) gets
streak 1 and `lastStreakDay` set to the submission day. -/
theorem C6_witness :
    ((submit sampleObjective (20465 * msPerDay) sampleToday).2).streak = 1 ∧
    ((submit sampleObjective (20465 * msPerDay) sampleToday).2).lastStreakDay =
      some sampleToday.dateOnly := by
  have h := C6_streak_update sampleObjective (20465 * msPerDay) sampleToday
    (by decide)
  exact ⟨h.2.2 rfl, h.2.1⟩

/-- C7: for a record whose stored frequency is none of daily/weekly/monthly,
the computed `nextAllowed` stays 0 whatever `lastSubmitted` holds, and a
submit at any clock time is never rejected with `CooldownActive`. -/
theorem C7_unrecognized_frequency (obj : Objective) (now : Int) (today : JsDate)
    (h1 : obj.frequency ≠ "daily") (h2 : obj.frequency ≠ "weekly")
    (h3 : obj.frequency ≠ "monthly") (hnow : 0 ≤ now) :
    cooldownNextAllowed obj = 0 ∧
    ∀ na, (submit obj now today).1 ≠ SubmitOutcome.cooldownActive na := by
  have hfor : ∀ x : Int, nextAllowedFor obj.frequency x = 0 := by
    intro x
    simp [nextAllowedFor, h1, h2, h3]
  have hna : cooldownNextAllowed obj = 0 := by
    cases hls : obj.lastSubmitted <;> simp [cooldownNextAllowed, hls, hfor, jsTruthyInt]
  refine ⟨hna, fun na => ?_⟩
  have hguard : decide (now < cooldownNextAllowed obj) = false := by
    simp [hna]; omega
  simp [submit, hguard]

/-- C7 witness: a concrete objective with frequency "yearly" and a nonzero
`lastSubmitted` is still immediately eligible. -/
theorem C7_witness :
    cooldownNextAllowed sampleYearly = 0 ∧
    ∀ na, (submit sampleYearly 5 sampleToday).1 ≠
      SubmitOutcome.cooldownActive na := by
  exact C7_unrecognized_frequency sampleYearly 5 sampleToday
    (by decide) (by decide) (by decide) (by decide)

/-- C3: for a daily objective with a stored `lastStreakDay` (midnight UTC of
epoch day `d`, since the column holds a `YYYY-MM-DD` string), an accepted
submission counts as consecutive iff its calendar day number minus `d` is
exactly 1 — a calendar-date comparison, not a 24h-elapsed one. -/
theorem C3_daily_consecutive (today lsd : JsDate) (d : Int)
    (hd : lsd.ms = d * msPerDay) :
    isConsecutive "daily" today (some lsd) = true ↔
      today.dayNumber - d = 1 := by
  have hfd : ∀ a : Int, a.fdiv msPerDay = a / msPerDay := fun a =>
    Int.fdiv_eq_ediv _ (by norm_num [msPerDay])
  simp only [isConsecutive, JsDate.dayNumber, hd, beq_iff_eq]
  simp only [hfd]
  simp only [msPerDay]
  norm_num
  omega

/-- C3 witness: submitting on epoch day 11 after a streak day of epoch day
10 is consecutive (even though less than 24h may have elapsed), while
submitting on day 12 after day 10 is not. -/
theorem C3_witness :
    isConsecutive "daily" { ms := 11 * msPerDay + 3 * msPerHour, month := 0, year := 1970 }
      (some { ms := 10 * msPerDay, month := 0, year := 1970 }) = true ∧
    isConsecutive "daily" { ms := 12 * msPerDay, month := 0, year := 1970 }
      (some { ms := 10 * msPerDay, month := 0, year := 1970 }) = false := by
  constructor
  · exact (C3_daily_consecutive
      { ms := 11 * msPerDay + 3 * msPerHour, month := 0, year := 1970 }
      { ms := 10 * msPerDay, month := 0, year := 1970 } 10 rfl).mpr (by decide)
  · have h := C3_daily_consecutive
      { ms := 12 * msPerDay, month := 0, year := 1970 }
      { ms := 10 * msPerDay, month := 0, year := 1970 } 10 rfl
    have hne : ¬ ((⟨12 * msPerDay, 0, 1970⟩ : JsDate).dayNumber - 10 = 1) := by
      decide
    exact Bool.eq_false_iff.mpr (fun hl => hne (h.mp hl))

/-- C4: for a weekly objective with a stored `lastStreakDay` (midnight UTC
of epoch day `d`), an accepted submission counts as consecutive iff the
day-count since `d`, divided by 7 and floored, is 1 — i.e. exactly the
intervals of 7 to 13 days, while 0 to 6 day intervals do not count. -/
theorem C4_weekly_consecutive (today lsd : JsDate) (d : Int)
    (hd : lsd.ms = d * msPerDay) :
    (isConsecutive "weekly" today (some lsd) = true ↔
      (today.dayNumber - d).fdiv 7 = 1) ∧
    (isConsecutive "weekly" today (some lsd) = true ↔
      7 ≤ today.dayNumber - d ∧ today.dayNumber - d ≤ 13) := by
  have hw : isConsecutive "weekly" today (some lsd) =
      ((today.ms - lsd.ms).fdiv (7 * msPerDay) == 1) := rfl
  have hfd : ∀ a : Int, a.fdiv msPerDay = a / msPerDay := fun a =>
    Int.fdiv_eq_ediv _ (by norm_num [msPerDay])
  have hfd7 : ∀ a : Int, a.fdiv (7 * msPerDay) = a / (7 * msPerDay) := fun a =>
    Int.fdiv_eq_ediv _ (by norm_num [msPerDay])
  have hfd1 : ∀ a : Int, a.fdiv 7 = a / 7 := fun a =>
    Int.fdiv_eq_ediv _ (by norm_num)
  constructor <;>
    · simp only [hw, JsDate.dayNumber, hd, beq_iff_eq]
      simp only [hfd, hfd7, hfd1]
      simp only [msPerDay]
      norm_num
      omega

/-- C4 witness: a 10-day interval counts as consecutive for a weekly
objective (floor(10/7) = 1), while a 6-day interval does not. -/
theorem C4_witness :
    isConsecutive "weekly" { ms := 110 * msPerDay + 5 * msPerHour, month := 0, year := 1970 }
      (some { ms := 100 * msPerDay, month := 0, year := 1970 }) = true ∧
    isConsecutive "weekly" { ms := 106 * msPerDay, month := 0, year := 1970 }
      (some { ms := 100 * msPerDay, month := 0, year := 1970 }) = false := by
  constructor
  · exact ((C4_weekly_consecutive
      { ms := 110 * msPerDay + 5 * msPerHour, month := 0, year := 1970 }
      { ms := 100 * msPerDay, month := 0, year := 1970 } 100 rfl).2).mpr (by decide)
  · have h := (C4_weekly_consecutive
      { ms := 106 * msPerDay, month := 0, year := 1970 }
      { ms := 100 * msPerDay, month := 0, year := 1970 } 100 rfl).2
    have hne : ¬ (7 ≤ (⟨106 * msPerDay, 0, 1970⟩ : JsDate).dayNumber - 100 ∧
        (⟨106 * msPerDay, 0, 1970⟩ : JsDate).dayNumber - 100 ≤ 13) := by
      decide
    exact Bool.eq_false_iff.mpr (fun hl => hne (h.mp hl))

/-- C5: for a monthly objective with a prior `lastStreakDay`, an accepted
submission counts as consecutive iff the submission's month number (as
returned by JavaScript `getMonth()`, 0-based: January = 0, December = 11)
equals the streak day's month number plus 1 and both years coincide; in
particular a December streak day followed by a January submission is never
consecutive. -/
theorem C5_monthly_consecutive (today lsd : JsDate) :
    (isConsecutive "monthly" today (some lsd) = true ↔
      today.month = lsd.month + 1 ∧ today.year = lsd.year) ∧
    (lsd.month = 11 → today.month = 0 →
      isConsecutive "monthly" today (some lsd) = false) := by
  constructor
  · simp [isConsecutive]
  · intro h1 h2
    simp [isConsecutive, h1, h2]

/-- C5 witness: November (month index 10) followed by December (index 11)
of the same year is consecutive; December followed by the next January is
not. -/
theorem C5_witness :
    isConsecutive "monthly" { ms := 0, month := 11, year := 2025 }
      (some { ms := 0, month := 10, year := 2025 }) = true ∧
    isConsecutive "monthly" { ms := 0, month := 0, year := 2026 }
      (some { ms := 0, month := 11, year := 2025 }) = false := by
  constructor
  · exact ((C5_monthly_consecutive { ms := 0, month := 11, year := 2025 }
      { ms := 0, month := 10, year := 2025 }).1).mpr (by decide)
  · exact (C5_monthly_consecutive { ms := 0, month := 0, year := 2026 }
      { ms := 0, month := 11, year := 2025 }).2 rfl rfl

/-- C8: a sweep at time `now` selects exactly the records with
(`lastSubmitted` null or older than `now - 24h`) and (`lastReminded` null or
older than `now - 24h`); after a successful dispatch the record's
`lastReminded` is the sweep's `now`, so a second sweep run less than 24h
later does not select it again. -/
theorem C8_sweep_selection (o : Objective) (now now2 : Int)
    (dispatchOk : String → Bool) :
    (isStale now o = true ↔
      ((o.lastSubmitted = none ∨
        ∃ t, o.lastSubmitted = some t ∧ t < now - 24 * msPerHour) ∧
       (o.lastReminded = none ∨
        ∃ t, o.lastReminded = some t ∧ t < now - 24 * msPerHour))) ∧
    (isStale now o = true → dispatchOk o.userId = true →
      (sweepRecord dispatchOk now o).lastReminded = some now ∧
      (now2 < now + 24 * msPerHour →
        isStale now2 (sweepRecord dispatchOk now o) = false)) := by
  constructor
  · cases hs : o.lastSubmitted <;> cases hr : o.lastReminded <;>
      simp [isStale, hs, hr]
  · intro hst hok
    have hrec : sweepRecord dispatchOk now o = { o with lastReminded := some now } := by
      simp [sweepRecord, hst, hok]
    refine ⟨by rw [hrec], fun h2 => ?_⟩
    rw [hrec]
    cases hs : o.lastSubmitted <;>
      simp [isStale, hs] <;> omega

/-- C8 witness: a record 25h stale and never reminded is selected; after a
successful dispatch at `now` its `lastReminded` is `now` and a sweep 1h
later does not select it. -/
theorem C8_witness :
    isStale (100 * msPerHour) sampleStale = true ∧
    (sweepRecord (fun _ => true) (100 * msPerHour) sampleStale).lastReminded =
      some (100 * msPerHour) ∧
    isStale (101 * msPerHour)
      (sweepRecord (fun _ => true) (100 * msPerHour) sampleStale) = false := by
  have h := (C8_sweep_selection sampleStale (100 * msPerHour) (101 * msPerHour)
    (fun _ => true)).2 (by decide) rfl
  exact ⟨by decide, h.1, h.2 (by decide)⟩

/-- C9: when dispatch fails for one selected record, that record is left
unchanged in the sweep result (so it stays eligible at any later sweep
time), and every other record of the table is still processed normally. -/
theorem C9_dispatch_failure_isolated (pre post : List Objective) (o : Objective)
    (now : Int) (dispatchOk : String → Bool)
    (hfail : dispatchOk o.userId = false) :
    sweep dispatchOk now (pre ++ o :: post) =
      sweep dispatchOk now pre ++ o :: sweep dispatchOk now post ∧
    (∀ now2, now ≤ now2 → isStale now o = true → isStale now2 o = true) := by
  have hrec : sweepRecord dispatchOk now o = o := by
    unfold sweepRecord
    split
    · rw [hfail]
      simp
    · rfl
  constructor
  · simp [sweep, hrec]
  · intro now2 hle hst
    cases hs : o.lastSubmitted <;> cases hr : o.lastReminded <;>
      simp [isStale, hs, hr] at hst ⊢ <;> omega

/-- C9 witness: with a failing dispatch for the middle record, a concrete
three-record sweep leaves it unchanged, processes its neighbours, and the
record is still selected one hour later. -/
theorem C9_witness :
    sweep (fun u => u != "u3") (100 * msPerHour)
        ([sampleStale] ++ sampleStale3 :: [sampleObjective]) =
      sweep (fun u => u != "u3") (100 * msPerHour) [sampleStale] ++
        sampleStale3 :: sweep (fun u => u != "u3") (100 * msPerHour) [sampleObjective] ∧
    isStale (101 * msPerHour) sampleStale3 = true := by
  have h := C9_dispatch_failure_isolated [sampleStale] [sampleObjective]
    sampleStale3 (100 * msPerHour) (fun u => u != "u3") (by decide)
  exact ⟨h.1, h.2 (101 * msPerHour) (by decide) (by decide)⟩

/-- For an unrecognized frequency no streak branch matches, so
`isConsecutive` is false whatever `lastStreakDay` holds. -/
theorem isConsecutive_unrecognized (freq : String) (today : JsDate)
    (lsd : Option JsDate)
    (h1 : freq ≠ "daily") (h2 : freq ≠ "weekly") (h3 : freq ≠ "monthly") :
    isConsecutive freq today lsd = false := by
  cases lsd <;> simp [isConsecutive, h1, h2, h3]

/-- One accepted submission of an unrecognized-frequency objective: the
stored streak becomes 1 and the frequency is untouched. -/
theorem submit_unrecognized_step (obj : Objective) (now : Int) (today : JsDate)
    (h1 : obj.frequency ≠ "daily") (h2 : obj.frequency ≠ "weekly")
    (h3 : obj.frequency ≠ "monthly") (hnow : 0 ≤ now) :
    ((submit obj now today).2).streak = 1 ∧
    ((submit obj now today).2).frequency = obj.frequency := by
  have hna : cooldownNextAllowed obj = 0 := by
    have hfor : ∀ x : Int, nextAllowedFor obj.frequency x = 0 := by
      intro x
      simp [nextAllowedFor, h1, h2, h3]
    cases hls : obj.lastSubmitted <;>
      simp [cooldownNextAllowed, hls, hfor, jsTruthyInt]
  have hg : (jsTruthyInt obj.lastSubmitted &&
      decide (now < cooldownNextAllowed obj)) = false := by
    have hd : decide (now < cooldownNextAllowed obj) = false := by
      simp [hna]; omega
    simp [hd]
  rw [submit_not_cooldown obj now today hg]
  refine ⟨?_, rfl⟩
  simp [isConsecutive_unrecognized obj.frequency today obj.lastStreakDay h1 h2 h3]

/-- Any nonempty run of submissions of an unrecognized-frequency objective
ends with streak exactly 1. -/
theorem submitMany_unrecognized (freq : String)
    (h1 : freq ≠ "daily") (h2 : freq ≠ "weekly") (h3 : freq ≠ "monthly") :
    ∀ subs : List (Int × JsDate), subs ≠ [] → (∀ p ∈ subs, 0 ≤ p.1) →
      ∀ obj : Objective, obj.frequency = freq →
        (submitMany obj subs).streak = 1 := by
  intro subs
  induction subs with
  | nil => intro hne; exact absurd rfl hne
  | cons p rest ih =>
    intro _ hpos obj hf
    obtain ⟨n, t⟩ := p
    have hstep := submit_unrecognized_step obj n t
      (hf ▸ h1) (hf ▸ h2) (hf ▸ h3) (hpos (n, t) (by simp))
    cases rest with
    | nil =>
      simp only [submitMany]
      exact hstep.1
    | cons q rest2 =>
      simp only [submitMany]
      exact ih (by simp) (fun r hr => hpos r (by simp [hr]))
        ((submit obj n t).2) (hstep.2.trans hf)

/-- C10: for a record whose stored frequency is unrecognized, no streak
branch matches, so every accepted submission resets the streak to 1; after
any nonempty sequence of back-to-back submissions the streak is exactly 1
and can never exceed 1. -/
theorem C10_unrecognized_streak (obj : Objective) (now : Int) (today : JsDate)
    (h1 : obj.frequency ≠ "daily") (h2 : obj.frequency ≠ "weekly")
    (h3 : obj.frequency ≠ "monthly") (hnow : 0 ≤ now) :
    isConsecutive obj.frequency today obj.lastStreakDay = false ∧
    ((submit obj now today).2).streak = 1 ∧
    (∀ subs : List (Int × JsDate), subs ≠ [] → (∀ p ∈ subs, 0 ≤ p.1) →
      (submitMany obj subs).streak = 1) := by
  refine ⟨isConsecutive_unrecognized obj.frequency today obj.lastStreakDay h1 h2 h3,
    (submit_unrecognized_step obj now today h1 h2 h3 hnow).1,
    fun subs hne hpos => submitMany_unrecognized obj.frequency h1 h2 h3
      subs hne hpos obj rfl⟩

/-- C10 witness: two back-to-back accepted submissions of a "yearly"
objective both leave the streak at exactly 1. -/
theorem C10_witness :
    isConsecutive sampleYearly.frequency sampleToday sampleYearly.lastStreakDay
      = false ∧
    (submitMany sampleYearly
      [(5, sampleToday), (6, sampleToday)]).streak = 1 := by
  have h := C10_unrecognized_streak sampleYearly 5 sampleToday
    (by decide) (by decide) (by decide) (by decide)
  exact ⟨h.1, h.2.2 [(5, sampleToday), (6, sampleToday)] (by simp)
    (by intro p hp; simp at hp; rcases hp with hc | hc <;> simp [hc])⟩

end DiscordBot
